import Mathlib

/-!
Shallow embedding of the `questionary` Question lifecycle wrapper
(`src/questionary/question.py`) and its reflective utility layer
(`src/questionary/utils.py`), with theorems settling the specification
claims about them.

Modelling conventions:
* A Python value that may be `None` is an `Option α`; Python `None` is `none`.
* The opaque prompt-toolkit `Application` is modelled by the observable
  outcome of one `run()` call (`RunOutcome`): it returns a value, raises
  `KeyboardInterrupt`, or raises some other exception (tagged by a `Nat`).
* `exit(...)`, a raised `KeyboardInterrupt` and an ordinary return are the
  three outcomes of `handle_kbi` (`KbiResult`); text printed to stdout is
  threaded explicitly (Python `print(s)` emits `s ++ "\n"`).
* Run invocations of the wrapped application are counted explicitly, so
  that "the program is never executed" is a statement about that counter.
-/

/-- Python's `bool`/`int` duality for the `exit_on_kbi` argument:
`BoolOrInt.bool b` is a plain Python `bool`, `BoolOrInt.int n` is an `int`
that is not a `bool` (in Python, `True`/`False` are `int`s, so
`isinstance(x, int) and not isinstance(x, bool)` picks exactly `.int n`). -/
inductive BoolOrInt where
  | bool (b : Bool)
  | int (n : Int)
deriving DecidableEq, Repr

/-- Python `exit_on_kbi is True`: identity with the literal `True`. -/
def BoolOrInt.isLiteralTrue : BoolOrInt → Bool
  | .bool true => true
  | _ => false

/-- Python `(not isinstance(x, bool)) and isinstance(x, int)`. -/
def BoolOrInt.isNonBoolInt : BoolOrInt → Bool
  | .int _ => true
  | _ => false

/-- The integer value passed to `exit(...)` (only reached on `.int n`;
Python would coerce `True`/`False` to `1`/`0`). -/
def BoolOrInt.intValue : BoolOrInt → Int
  | .int n => n
  | .bool true => 1
  | .bool false => 0

/-- Python truthiness of the `kbi_msg : str | None` argument:
`None` and the empty string are falsy. -/
def msgTruthy : Option String → Bool
  | none => false
  | some s => s != ""

/-- Outcome of `handle_kbi`: request process termination with a status
code (`exit(...)`), re-raise the `KeyboardInterrupt`, or return `None`
after emitting `stdout` (the text printed, `""` when nothing is printed). -/
inductive KbiResult where
  | exit (code : Int)
  | raiseKbi
  | ret (stdout : String)
deriving DecidableEq, Repr

/-- `handle_kbi` from `src/questionary/question.py`:
`if exit_on_kbi is True: exit(0)`
`elif (not isinstance(exit_on_kbi, bool)) and isinstance(exit_on_kbi, int): exit(exit_on_kbi)`
`elif raise_on_kbi: raise KeyboardInterrupt()`
`else: if kbi_msg: print(f"\n\x7bkbi_msg\x7d\n"); return None`. -/
def handle_kbi (kbi_msg : Option String) (raise_on_kbi : Bool)
    (exit_on_kbi : BoolOrInt) : KbiResult :=
  if exit_on_kbi.isLiteralTrue then
    KbiResult.exit 0
  else if exit_on_kbi.isNonBoolInt then
    KbiResult.exit exit_on_kbi.intValue
  else if raise_on_kbi then
    KbiResult.raiseKbi
  else
    KbiResult.ret
      (if msgTruthy kbi_msg then "\n" ++ kbi_msg.getD "" ++ "\n" ++ "\n" else "")

/-- Observable behaviour of one `application.run()` (or awaited
`run_async()`) call of the wrapped prompt-toolkit program: it produces a
value (possibly `None`), raises `KeyboardInterrupt`, or raises some other
exception, tagged by a `Nat` so distinct failures are distinguishable. -/
inductive RunOutcome (α : Type) where
  | ok (v : Option α)
  | kbi
  | err (e : Nat)
deriving DecidableEq, Repr

/-- The mutable state of a `Question` instance: `should_skip_question`
and `default`, as set by `__init__` and `skip_if`. The wrapped
`application` is kept outside the record and passed as a `RunOutcome`. -/
structure Question (α : Type) where
  should_skip_question : Bool
  default : Option α
deriving DecidableEq, Repr

/-- `Question.__init__`: `should_skip_question = False`, `default = None`. -/
def Question.init (α : Type) : Question α := ⟨false, none⟩

/-- Result of `unsafe_ask`: a returned value, a propagated
`KeyboardInterrupt`, or a propagated other exception. -/
inductive UnsafeResult (α : Type) where
  | ret (v : Option α)
  | kbi
  | err (e : Nat)
deriving DecidableEq, Repr

/-- `Question.unsafe_ask`: if `should_skip_question`, return `default`
without running the application (run count 0); otherwise run the
application once (run count 1) and let its outcome pass through
unchanged — both the `patch_stdout` branch and the plain branch return
`self.application.run()`. The second component counts run invocations. -/
def unsafe_ask (q : Question α) (app : RunOutcome α) (patch_stdout : Bool) :
    UnsafeResult α × Nat :=
  if q.should_skip_question then
    (UnsafeResult.ret q.default, 0)
  else
    match patch_stdout, app with
    | _, RunOutcome.ok v => (UnsafeResult.ret v, 1)
    | _, RunOutcome.kbi => (UnsafeResult.kbi, 1)
    | _, RunOutcome.err e => (UnsafeResult.err e, 1)

/-- Result of `ask`: a returned value, a re-raised `KeyboardInterrupt`,
a requested process exit, or a propagated non-interrupt exception. -/
inductive AskResult (α : Type) where
  | ret (v : Option α)
  | raised
  | exited (code : Int)
  | err (e : Nat)
deriving DecidableEq, Repr

/-- `Question.ask`: `try: return self.unsafe_ask(patch_stdout) except
KeyboardInterrupt: return handle_kbi(...)`. Only `KeyboardInterrupt` is
caught; other exceptions pass through. Returns the result, the run
invocation count and the stdout text the interrupt handler printed. -/
def ask (q : Question α) (app : RunOutcome α) (patch_stdout : Bool)
    (kbi_msg : Option String) (raise_on_kbi : Bool) (exit_on_kbi : BoolOrInt) :
    AskResult α × Nat × String :=
  match unsafe_ask q app patch_stdout with
  | (UnsafeResult.ret v, n) => (AskResult.ret v, n, "")
  | (UnsafeResult.err e, n) => (AskResult.err e, n, "")
  | (UnsafeResult.kbi, n) =>
    match handle_kbi kbi_msg raise_on_kbi exit_on_kbi with
    | KbiResult.exit c => (AskResult.exited c, n, "")
    | KbiResult.raiseKbi => (AskResult.raised, n, "")
    | KbiResult.ret out => (AskResult.ret none, n, out)

/-- `Question.skip_if(condition, default)`: sets
`should_skip_question = condition` and `default = default`, then
`return self` (modelled functionally as the updated record). -/
def skip_if (q : Question α) (condition : Bool) (d : Option α) : Question α :=
  { q with should_skip_question := condition, default := d }

/-- `skip_if` called without its `default` argument: the Python
parameter default is `None`. -/
def skip_if_no_default (q : Question α) (condition : Bool) : Question α :=
  skip_if q condition none

/-- Process-wide state touched by the asynchronous path:
`utils.ACTIVATED_ASYNC_MODE` and whether the rendering engine has been
told to use the asyncio event loop (the side effect of
`pt.eventloop.use_asyncio_event_loop()` on prompt-toolkit 2). -/
structure AsyncState where
  activated_async_mode : Bool
  engine_asyncio : Bool
deriving DecidableEq, Repr

/-- Module-load state: `ACTIVATED_ASYNC_MODE = False`, engine untouched. -/
def AsyncState.init : AsyncState := ⟨false, false⟩

/-- `utils.activate_prompt_toolkit_async_mode`: on prompt-toolkit < 3,
configure the engine for asyncio (idempotent mode configuration); then
set `ACTIVATED_ASYNC_MODE = True`. `ptk3` is `is_prompt_toolkit_3()`. -/
def activate_prompt_toolkit_async_mode (ptk3 : Bool) (s : AsyncState) :
    AsyncState :=
  let s1 := if ptk3 then s else { s with engine_asyncio := true }
  { s1 with activated_async_mode := true }

/-- `Question.unsafe_ask_async`: skip path returns `default` without
running; otherwise, if `ACTIVATED_ASYNC_MODE` is unset, run the one-time
activation, then run the application once and let its outcome pass
through (on both prompt-toolkit versions the awaited result is the run
outcome). Returns result, run count and the updated process state. -/
def unsafe_ask_async (q : Question α) (app : RunOutcome α) (ptk3 : Bool)
    (s : AsyncState) (patch_stdout : Bool) :
    UnsafeResult α × Nat × AsyncState :=
  if q.should_skip_question then
    (UnsafeResult.ret q.default, 0, s)
  else
    let s1 := if !s.activated_async_mode then
        activate_prompt_toolkit_async_mode ptk3 s
      else s
    match patch_stdout, app with
    | _, RunOutcome.ok v => (UnsafeResult.ret v, 1, s1)
    | _, RunOutcome.kbi => (UnsafeResult.kbi, 1, s1)
    | _, RunOutcome.err e => (UnsafeResult.err e, 1, s1)

/-- `Question.ask_async`: `try: return await self.unsafe_ask_async(...)
except KeyboardInterrupt: return handle_kbi(...)`. -/
def ask_async (q : Question α) (app : RunOutcome α) (ptk3 : Bool)
    (s : AsyncState) (patch_stdout : Bool) (kbi_msg : Option String)
    (raise_on_kbi : Bool) (exit_on_kbi : BoolOrInt) :
    AskResult α × Nat × String × AsyncState :=
  match unsafe_ask_async q app ptk3 s patch_stdout with
  | (UnsafeResult.ret v, n, s1) => (AskResult.ret v, n, "", s1)
  | (UnsafeResult.err e, n, s1) => (AskResult.err e, n, "", s1)
  | (UnsafeResult.kbi, n, s1) =>
    match handle_kbi kbi_msg raise_on_kbi exit_on_kbi with
    | KbiResult.exit c => (AskResult.exited c, n, "", s1)
    | KbiResult.raiseKbi => (AskResult.raised, n, "", s1)
    | KbiResult.ret out => (AskResult.ret none, n, out, s1)

/-- One declared parameter of a Python callable, as seen by
`inspect.signature`: its name, whether it has a default value
(`v.default is not inspect.Parameter.empty`), and whether its kind is
`POSITIONAL_OR_KEYWORD`. -/
structure Param where
  name : String
  has_default : Bool
  pos_or_kw : Bool
deriving DecidableEq, Repr

/-- A Python callable's signature: its parameters in declaration order
(names are unique in a real signature, but nothing here relies on it). -/
def Sig : Type := List Param

/-- `utils.arguments_of`: `list(inspect.signature(func).parameters.keys())`. -/
def arguments_of (f : Sig) : List String := f.map Param.name

/-- `utils.default_values_of`: names of parameters with a default value
or whose kind is not `POSITIONAL_OR_KEYWORD`. -/
def default_values_of (f : Sig) : List String :=
  (f.filter (fun p => p.has_default || !p.pos_or_kw)).map Param.name

/-- `utils.used_kwargs`: `{k: v for k, v in kwargs.items() if k in
arguments_of(func)}`; the kwargs dict is modelled as an association list
in insertion order. -/
def used_kwargs (kwargs : List (String × V)) (f : Sig) : List (String × V) :=
  kwargs.filter (fun kv => (arguments_of f).contains kv.1)

/-- `utils.required_arguments`: `args[:-len(defaults)]` when `defaults`
is non-empty, else `args` unchanged. -/
def required_arguments (f : Sig) : List String :=
  let defaults := default_values_of f
  let args := arguments_of f
  if defaults.isEmpty then args else args.take (args.length - defaults.length)

/-- `utils.missing_arguments`: `set(required_arguments(func)) -
set(argdict.keys())`; the Python set is modelled as the list of required
names not among the dict's keys. -/
def missing_arguments (f : Sig) (argdict : List (String × V)) : List String :=
  (required_arguments f).filter (fun k => !((argdict.map Prod.fst).contains k))

/-- One mutating operation applied to a `Question` instance: a full
`ask(...)` call (with the application's behaviour for that call and the
interrupt-policy arguments), or a `skip_if(...)` call. -/
inductive QOp (α : Type) where
  | askOp (app : RunOutcome α) (patch_stdout : Bool) (kbi_msg : Option String)
      (raise_on_kbi : Bool) (exit_on_kbi : BoolOrInt)
  | skipIfOp (condition : Bool) (d : Option α)
deriving DecidableEq, Repr

/-- Apply one operation to (question state, cumulative run count):
`ask` leaves the `Question` fields unchanged and adds its run
invocations; `skip_if` rewrites the fields and runs nothing. -/
def stepQ (st : Question α × Nat) (op : QOp α) : Question α × Nat :=
  match op with
  | QOp.askOp app patch msg r e =>
    (st.1, st.2 + (ask st.1 app patch msg r e).2.1)
  | QOp.skipIfOp c d => (skip_if st.1 c d, st.2)

/-- Run a sequence of operations against a `Question`, accumulating the
wrapped program's run count. -/
def runOps (q : Question α) (n : Nat) (ops : List (QOp α)) : Question α × Nat :=
  ops.foldl stepQ (q, n)

/-- `true` iff `c :: cs` starts with `p :: ps` (character-wise match). -/
def matchesAt : List Char → List Char → Bool
  | [], _ => true
  | _ :: _, [] => false
  | p :: ps, c :: cs => p == c && matchesAt ps cs

/-- Number of positions of `s` at which `pat` occurs (for a non-empty
`pat` this is the number of occurrences of `pat` as a substring). -/
def occAux (pat : List Char) : List Char → Nat
  | [] => 0
  | c :: cs => (if matchesAt pat (c :: cs) then 1 else 0) + occAux pat cs

/-- Occurrence count of `pat` in `s`, on the underlying character lists. -/
def countOccurrences (pat s : String) : Nat := occAux pat.toList s.toList

/-- The argument tuple of one `ask(...)` call (used to describe traces
consisting of ask calls only). -/
structure AskArgs (α : Type) where
  app : RunOutcome α
  patch_stdout : Bool
  kbi_msg : Option String
  raise_on_kbi : Bool
  exit_on_kbi : BoolOrInt
deriving DecidableEq, Repr

/-- View an `ask` argument tuple as a trace operation. -/
def AskArgs.toOp (a : AskArgs α) : QOp α :=
  QOp.askOp a.app a.patch_stdout a.kbi_msg a.raise_on_kbi a.exit_on_kbi

/-- Claim C1: with `skip = true`, `ask` and `unsafe_ask` return exactly
the stored default and never invoke the wrapped program's run operation
(run count 0); with `skip = false` and no interrupt, both return exactly
the wrapped program's result (run count 1, nothing printed). -/
theorem C1_skip_and_result (α : Type) (d v : Option α) (app : RunOutcome α)
    (patch : Bool) (msg : Option String) (r : Bool) (e : BoolOrInt) :
    unsafe_ask (⟨true, d⟩ : Question α) app patch = (UnsafeResult.ret d, 0) ∧
    ask (⟨true, d⟩ : Question α) app patch msg r e = (AskResult.ret d, 0, "") ∧
    unsafe_ask (⟨false, d⟩ : Question α) (RunOutcome.ok v) patch
      = (UnsafeResult.ret v, 1) ∧
    ask (⟨false, d⟩ : Question α) (RunOutcome.ok v) patch msg r e
      = (AskResult.ret v, 1, "") := by
  refine ⟨rfl, rfl, ?_, ?_⟩ <;> cases patch <;> rfl

/-- Claim C2: interrupt-policy precedence of `handle_kbi`: literal
`True` exits with status 0; a non-boolean integer exits with that
status (even when `raise_on_kbi` is set, so exit takes precedence over
raise); otherwise `raise_on_kbi = true` re-raises the interrupt, which
`ask` propagates to its caller. -/
theorem C2_interrupt_policy_precedence (msg : Option String) (r : Bool)
    (n : Int) (α : Type) (d : Option α) (patch : Bool) :
    handle_kbi msg r (BoolOrInt.bool true) = KbiResult.exit 0 ∧
    handle_kbi msg r (BoolOrInt.int n) = KbiResult.exit n ∧
    handle_kbi msg true (BoolOrInt.bool false) = KbiResult.raiseKbi ∧
    ask (⟨false, d⟩ : Question α) RunOutcome.kbi patch msg true
        (BoolOrInt.bool false)
      = (AskResult.raised, 1, "") := by
  refine ⟨rfl, rfl, rfl, ?_⟩
  cases patch <;> rfl

/-- Claim C3 counterexample: under the default interrupt policy the
configured message occurs exactly once on stdout (surrounded by blank
lines), not twice as the claim states. -/
theorem C3_counterexample :
    (ask (⟨false, none⟩ : Question Nat) RunOutcome.kbi false
        (some "Cancelled by user") false (BoolOrInt.bool false)).2.2
      = "\nCancelled by user\n\n" ∧
    countOccurrences "Cancelled by user"
        ((ask (⟨false, none⟩ : Question Nat) RunOutcome.kbi false
          (some "Cancelled by user") false (BoolOrInt.bool false)).2.2) = 1 ∧
    ¬ countOccurrences "Cancelled by user"
        ((ask (⟨false, none⟩ : Question Nat) RunOutcome.kbi false
          (some "Cancelled by user") false (BoolOrInt.bool false)).2.2) = 2 := by
  refine ⟨by decide, by decide, by decide⟩

/-- Claim C3 (amended): under the default policy (`raise_on_kbi` false,
`exit_on_kbi` false, non-empty message), `ask` on an interrupted run
prints the configured message once, surrounded by blank lines, and
returns the no-value result `none` to the caller. -/
theorem C3_default_policy_message_once (α : Type) (d : Option α)
    (patch : Bool) (msg : String) (h : msg ≠ "") :
    ask (⟨false, d⟩ : Question α) RunOutcome.kbi patch (some msg) false
        (BoolOrInt.bool false)
      = (AskResult.ret none, 1, "\n" ++ msg ++ "\n" ++ "\n") := by
  cases patch <;>
    simp [ask, unsafe_ask, handle_kbi, msgTruthy, BoolOrInt.isLiteralTrue,
      BoolOrInt.isNonBoolInt, h]

/-- Witness for C3 (amended) at a concrete message. -/
theorem C3_default_policy_message_once_witness :
    ask (⟨false, none⟩ : Question Nat) RunOutcome.kbi false
        (some "Cancelled by user") false (BoolOrInt.bool false)
      = (AskResult.ret none, 1, "\n" ++ "Cancelled by user" ++ "\n" ++ "\n") :=
  C3_default_policy_message_once Nat none false "Cancelled by user" (by decide)

/-- Claim C4 counterexample: a `Question` whose `skip` is true can still
have its program executed after a later `skip_if(False, ...)` call on
the same instance — the run count after `skip_if(False)` then `ask` is
1, not 0. -/
theorem C4_counterexample :
    (runOps (⟨true, none⟩ : Question Nat) 0
        [QOp.skipIfOp false none,
         QOp.askOp (RunOutcome.ok (some 5)) false none false
           (BoolOrInt.bool false)]).2 = 1 ∧
    ¬ (runOps (⟨true, none⟩ : Question Nat) 0
        [QOp.skipIfOp false none,
         QOp.askOp (RunOutcome.ok (some 5)) false none false
           (BoolOrInt.bool false)]).2 = 0 := by
  exact ⟨by decide, by decide⟩

/-- Claim C4 (amended): as long as no intervening `skip_if` call resets
the flag, a `Question` with `skip = true` never executes its program:
any sequence consisting only of `ask` calls leaves the question state
unchanged and the run count where it started. -/
theorem C4_skip_true_never_runs (α : Type) (d : Option α) (n : Nat)
    (asks : List (AskArgs α)) :
    runOps (⟨true, d⟩ : Question α) n (asks.map AskArgs.toOp)
      = (⟨true, d⟩, n) := by
  induction asks generalizing n with
  | nil => rfl
  | cons a rest ih =>
    have hs : stepQ ((⟨true, d⟩ : Question α), n) a.toOp = (⟨true, d⟩, n) := by
      cases a
      simp [stepQ, AskArgs.toOp, ask, unsafe_ask]
    calc runOps (⟨true, d⟩ : Question α) n ((a :: rest).map AskArgs.toOp)
        = List.foldl stepQ (stepQ (⟨true, d⟩, n) a.toOp)
            (rest.map AskArgs.toOp) := rfl
      _ = runOps (⟨true, d⟩ : Question α) n (rest.map AskArgs.toOp) := by
            rw [hs]; rfl
      _ = (⟨true, d⟩, n) := ih n

/-- Claim C5: `skip_if` sets `skip` and `default` together and yields
the (updated) question itself; a later `skip_if` call completely
overwrites an earlier one, so after `skip_if(true, x).skip_if(false, y)`
an `ask` executes the program once and returns its result, not `y`. -/
theorem C5_skip_if_last_call_wins (α : Type) (q : Question α) (c c2 : Bool)
    (d d2 x y v : Option α) (patch : Bool) (msg : Option String) (r : Bool)
    (e : BoolOrInt) :
    skip_if q c d = ⟨c, d⟩ ∧
    skip_if (skip_if q c d) c2 d2 = skip_if q c2 d2 ∧
    ask (skip_if (skip_if q true x) false y) (RunOutcome.ok v) patch msg r e
      = (AskResult.ret v, 1, "") := by
  refine ⟨rfl, rfl, ?_⟩
  cases patch <;> rfl

/-- Claim C6: only `KeyboardInterrupt` is intercepted by `ask` and
`ask_async` — any other exception raised by the wrapped program crosses
them unchanged under every interrupt policy — and `unsafe_ask` catches
nothing: an interrupt raised during it propagates to its caller. -/
theorem C6_only_kbi_intercepted (α : Type) (d : Option α) (e : Nat)
    (patch : Bool) (msg : Option String) (r : Bool) (ex : BoolOrInt)
    (ptk3 : Bool) (s : AsyncState) :
    ask (⟨false, d⟩ : Question α) (RunOutcome.err e) patch msg r ex
      = (AskResult.err e, 1, "") ∧
    (ask_async (⟨false, d⟩ : Question α) (RunOutcome.err e) ptk3 s patch msg
        r ex).1 = AskResult.err e ∧
    (unsafe_ask (⟨false, d⟩ : Question α) RunOutcome.kbi patch).1
      = UnsafeResult.kbi := by
  refine ⟨?_, ?_, ?_⟩ <;>
    cases patch <;>
      simp [ask, ask_async, unsafe_ask, unsafe_ask_async]

/-- Claim C7: `used_kwargs` keeps exactly the entries of the kwargs bag
whose key is a declared parameter name of the callable, values
untouched and unknown keys silently dropped; in particular on
`x7b"a": 1, "b": 2, "z": 9x7d` against `f(a, b)` it yields exactly
`x7b"a": 1, "b": 2x7d`. -/
theorem C7_used_kwargs_filters (V : Type) (kwargs : List (String × V))
    (f : Sig) (k : String) (v : V) :
    ((k, v) ∈ used_kwargs kwargs f ↔ (k, v) ∈ kwargs ∧ k ∈ arguments_of f) ∧
    used_kwargs [("a", 1), ("b", 2), ("z", 9)]
        [⟨"a", false, true⟩, ⟨"b", false, true⟩]
      = [("a", 1), ("b", 2)] := by
  constructor
  · simp [used_kwargs, List.mem_filter, List.contains, List.elem_iff]
  · decide

/-- Claim C8: `required_arguments` is the declared parameter list with
its trailing `(default_values_of f).length` names removed (also when no
parameter has a default), and `missing_arguments` is the set difference
of the required names and the option keys; on `f(a, b)` with options
`x7b"a": 1x7d` it yields exactly `x7b"b"x7d`. -/
theorem C8_required_and_missing (V : Type) (f : Sig)
    (argdict : List (String × V)) (k : String) :
    required_arguments f = (arguments_of f).take
        ((arguments_of f).length - (default_values_of f).length) ∧
    (k ∈ missing_arguments f argdict ↔
      k ∈ required_arguments f ∧ ¬ k ∈ argdict.map Prod.fst) ∧
    missing_arguments [⟨"a", false, true⟩, ⟨"b", false, true⟩]
        [("a", (1 : Nat))] = ["b"] := by
  refine ⟨?_, ?_, by decide⟩
  · by_cases h : (default_values_of f).isEmpty
    · have h0 : (default_values_of f).length = 0 := by
        simpa [List.isEmpty_iff, List.length_eq_zero] using h
      simp [required_arguments, h, h0, List.take_length]
    · simp [required_arguments, h]
  · simp [missing_arguments, List.mem_filter, List.contains, List.elem_iff]

/-- `ask_async` only wraps `unsafe_ask_async` in the interrupt handler:
the process-state component it returns is exactly the one
`unsafe_ask_async` produced, whatever the interrupt policy decides. -/
theorem ask_async_state_component (α : Type) (q : Question α)
    (app : RunOutcome α) (ptk3 : Bool) (s : AsyncState) (patch : Bool)
    (msg : Option String) (r : Bool) (ex : BoolOrInt) :
    (ask_async q app ptk3 s patch msg r ex).2.2.2
      = (unsafe_ask_async q app ptk3 s patch).2.2 := by
  unfold ask_async
  obtain ⟨res, n, s1⟩ := unsafe_ask_async q app ptk3 s patch
  cases res
  · rfl
  · cases handle_kbi msg r ex <;> rfl
  · rfl

/-- Claim C9: the process-wide `ACTIVATED_ASYNC_MODE` flag starts
false; the activation step sets it true from any state; running it
twice is the same as running it once (no error, no duplicate side
effect on the engine state); an asynchronous ask that actually runs
while the flag is unset sets it; and no modelled operation ever resets
a true flag to false (`unsafe_ask_async` and `ask_async` preserve it). -/
theorem C9_async_mode_latch (α : Type) (q : Question α) (d : Option α)
    (app : RunOutcome α) (ptk3 patch eng : Bool) (s : AsyncState)
    (msg : Option String) (r : Bool) (ex : BoolOrInt) :
    AsyncState.init.activated_async_mode = false ∧
    (activate_prompt_toolkit_async_mode ptk3 s).activated_async_mode = true ∧
    activate_prompt_toolkit_async_mode ptk3
        (activate_prompt_toolkit_async_mode ptk3 s)
      = activate_prompt_toolkit_async_mode ptk3 s ∧
    (unsafe_ask_async (⟨false, d⟩ : Question α) app ptk3 ⟨false, eng⟩
        patch).2.2.activated_async_mode = true ∧
    (unsafe_ask_async q app ptk3 ⟨true, eng⟩
        patch).2.2.activated_async_mode = true ∧
    (ask_async q app ptk3 ⟨true, eng⟩ patch msg r
        ex).2.2.2.activated_async_mode = true := by
  refine ⟨rfl, ?_, ?_, ?_, ?_, ?_⟩
  · cases ptk3 <;> rfl
  · cases ptk3 <;> rfl
  · cases app <;> cases patch <;> cases ptk3 <;>
      simp [unsafe_ask_async, activate_prompt_toolkit_async_mode]
  · obtain ⟨sk, dd⟩ := q
    cases sk <;> cases app <;> cases patch <;>
      simp [unsafe_ask_async, activate_prompt_toolkit_async_mode]
  · rw [ask_async_state_component]
    obtain ⟨sk, dd⟩ := q
    cases sk <;> cases app <;> cases patch <;>
      simp [unsafe_ask_async, activate_prompt_toolkit_async_mode]

/-- Claim C10: `skip_if` overwrites `default` even when `condition` is
false; its omitted `default` argument is `None`, the same value a fresh
`Question` holds; so `skip_if(True)` with no explicit default makes
`ask` return `none` without running the program. -/
theorem C10_skip_if_default_none (α : Type) (q : Question α) (c : Bool)
    (d : Option α) (app : RunOutcome α) (patch : Bool) (msg : Option String)
    (r : Bool) (e : BoolOrInt) :
    (skip_if q false d).default = d ∧
    (skip_if_no_default q c).default = none ∧
    (Question.init α).default = none ∧
    ask (skip_if_no_default q true) app patch msg r e
      = (AskResult.ret none, 0, "") := by
  exact ⟨rfl, rfl, rfl, rfl⟩
